import Mathlib

/-!
Shallow embedding of the sp105e LED-controller protocol codec and client
logic (crate sp105e: commands.rs and client.rs).  Machine bytes are
modelled as Nat; the u8/u16 casts of the source appear as explicit mod-256
operations where the source performs a cast.  Fallible Rust functions
returning anyhow Result are modelled as Except Err; the anyhow error
messages of the source are kept verbatim in the msg constructor, and the
ub constructor marks the undefined behaviour the source would exhibit if
one of its unchecked transmutes were reached with an out-of-range byte.
-/

/-- Errors: msg carries an anyhow error message verbatim from the source;
ub marks a reached unchecked transmute (undefined behaviour in the source). -/
inductive Err where
  | msg (s : String)
  | ub (site : String)
deriving DecidableEq, Repr

/-- commands.rs: COMMAND_BUF_LENGTH = 5. -/
def COMMAND_BUF_LENGTH : Nat := 5

/-- commands.rs: the COMMAND_PREFIX constant 0x38 (first byte of every frame). -/
def COMMAND_PREFIX_BYTE : Nat := 0x38

/-- commands.rs: STATUS_RETURN_LENGTH = 8. -/
def STATUS_RETURN_LENGTH : Nat := 8

/-- commands.rs: enum ColorOrder (6 variants, ordinals 0..5). -/
inductive ColorOrder where
  | RGB | RBG | GRB | GBR | BRG | BGR
deriving DecidableEq, Repr

/-- The ordinal of a ColorOrder variant (the `as u8` cast of the source). -/
def ColorOrder.toNat : ColorOrder → Nat
  | .RGB => 0
  | .RBG => 1
  | .GRB => 2
  | .GBR => 3
  | .BRG => 4
  | .BGR => 5

/-- Inverse of the ordinal map; none outside 0..5.  Models the
transmute in commands.rs, which is defined exactly on these ordinals. -/
def ColorOrder.ofNat? : Nat → Option ColorOrder
  | 0 => some .RGB
  | 1 => some .RBG
  | 2 => some .GRB
  | 3 => some .GBR
  | 4 => some .BRG
  | 5 => some .BGR
  | _ => none

/-- commands.rs: enum PixelType (27 variants, ordinals 0..26). -/
inductive PixelType where
  | SM16703 | TM1804 | USC1903 | WS2811 | WS2801 | SK6812 | SK6812RGBW
  | LPD6803 | LPD8806 | APA102 | APA105 | TM1814 | TM1914 | TM1913
  | P9813 | INK1003 | DMX512 | P943S | P9411 | P9412 | P9413 | P9414
  | TX1812 | TX1813 | GS8206 | GS8208 | SK9822
deriving DecidableEq, Repr

/-- The ordinal of a PixelType variant (the `as u8` cast of the source). -/
def PixelType.toNat : PixelType → Nat
  | .SM16703 => 0
  | .TM1804 => 1
  | .USC1903 => 2
  | .WS2811 => 3
  | .WS2801 => 4
  | .SK6812 => 5
  | .SK6812RGBW => 6
  | .LPD6803 => 7
  | .LPD8806 => 8
  | .APA102 => 9
  | .APA105 => 10
  | .TM1814 => 11
  | .TM1914 => 12
  | .TM1913 => 13
  | .P9813 => 14
  | .INK1003 => 15
  | .DMX512 => 16
  | .P943S => 17
  | .P9411 => 18
  | .P9412 => 19
  | .P9413 => 20
  | .P9414 => 21
  | .TX1812 => 22
  | .TX1813 => 23
  | .GS8206 => 24
  | .GS8208 => 25
  | .SK9822 => 26

/-- Inverse of the ordinal map; none outside 0..26.  Models the
transmute in commands.rs, which is defined exactly on these ordinals. -/
def PixelType.ofNat? : Nat → Option PixelType
  | 0 => some .SM16703
  | 1 => some .TM1804
  | 2 => some .USC1903
  | 3 => some .WS2811
  | 4 => some .WS2801
  | 5 => some .SK6812
  | 6 => some .SK6812RGBW
  | 7 => some .LPD6803
  | 8 => some .LPD8806
  | 9 => some .APA102
  | 10 => some .APA105
  | 11 => some .TM1814
  | 12 => some .TM1914
  | 13 => some .TM1913
  | 14 => some .P9813
  | 15 => some .INK1003
  | 16 => some .DMX512
  | 17 => some .P943S
  | 18 => some .P9411
  | 19 => some .P9412
  | 20 => some .P9413
  | 21 => some .P9414
  | 22 => some .TX1812
  | 23 => some .TX1813
  | 24 => some .GS8206
  | 25 => some .GS8208
  | 26 => some .SK9822
  | _ => none

/-- commands.rs: enum Command.  Payload types u16/u8/[u8;3] become Nat
arguments (byte bounds are type invariants of the source, stated as
hypotheses where a theorem needs them). -/
inductive Command where
  | Hello
  | Status
  | Power
  | SetPixels (pixels : Nat)
  | SetColorOrder (co : ColorOrder)
  | SetPixelType (pt : PixelType)
  | FixedRed
  | FixedGreen
  | FixedBlue
  | FixedWhite1
  | FixedWhite2
  | Animation (animation : Nat)
  | Color (c1 c2 c3 : Nat)
  | SpeedUp
  | SpeedDown
  | BrightnessUp
  | BrightnessDown
deriving DecidableEq, Repr

/-- commands.rs: Command::discriminant.  The source reads the repr(u8)
discriminant through a pointer cast; its value is the explicit
discriminant of each variant in the enum declaration. -/
def Command.discriminant : Command → Nat
  | .Hello => 0xD5
  | .Status => 0x10
  | .Power => 0xAA
  | .SetPixels _ => 0x2D
  | .SetColorOrder _ => 0x3C
  | .SetPixelType _ => 0x1C
  | .FixedRed => 0x12
  | .FixedGreen => 0x18
  | .FixedBlue => 0x36
  | .FixedWhite1 => 0x3B
  | .FixedWhite2 => 0x56
  | .Animation _ => 0x2C
  | .Color _ _ _ => 0x1E
  | .SpeedUp => 0x03
  | .SpeedDown => 0x09
  | .BrightnessUp => 0x2A
  | .BrightnessDown => 0x28

/-- commands.rs: Command::buf.  Builds the 5-byte frame
[COMMAND_PREFIX, inner0, inner1, inner2, discriminant].  The source
performs no range validation (its TODO comments note the missing
checks); the function is total. -/
def Command.buf (c : Command) : List Nat :=
  let inner : Nat × Nat × Nat :=
    match c with
    | .SetPixels pixels => ((pixels >>> 8) % 256, pixels % 256, 0)
    | .Color c1 c2 c3 => (c1, c2, c3)
    | .Animation animation => (animation, 0, 0)
    | .SetColorOrder co => (co.toNat, 0, 0)
    | .SetPixelType pt => (pt.toNat, 0, 0)
    | _ => (0, 0, 0)
  [COMMAND_PREFIX_BYTE, inner.1, inner.2.1, inner.2.2, c.discriminant]

/-- commands.rs: struct StatusResp. -/
structure StatusResp where
  power : Nat
  mode : Command
  speed : Nat
  brightness : Nat
  pixel_type : PixelType
  color_order : ColorOrder
  _unknown : List Nat
deriving DecidableEq, Repr

/-- commands.rs, TryFrom for StatusResp: derivation of the mode field
from the raw mode byte (the if/match block of try_from). -/
def decodeMode (mode_v : Nat) : Except Err Command :=
  if mode_v ≤ 0xc8 then .ok (.Animation mode_v)
  else
    match mode_v with
    | 0xc9 => .ok (.Color 0 0 0)
    | 0xca => .ok .FixedRed
    | 0xcb => .ok .FixedGreen
    | 0xcc => .ok .FixedBlue
    | 0xcd => .ok .FixedWhite1
    | 0xce => .ok .FixedWhite2
    | _ => .error (.msg ("unknown mode " ++ toString mode_v))

/-- commands.rs: impl TryFrom for StatusResp (try_from).  The two
unchecked transmutes of the source are modelled by ofNat?, whose none
branch (unreachable in the source only because of the preceding range
checks) is marked with the ub error. -/
def statusTryFrom (value : List Nat) : Except Err StatusResp :=
  if value.length < 8 then .error (.msg "status vector has wrong size")
  else
    match value with
    | [power, mode_v, speed, brightness, pixel_type_v, color_order_v, u1, u2] =>
      match decodeMode mode_v with
      | .error e => .error e
      | .ok mode =>
        if ¬ pixel_type_v ≤ PixelType.toNat .SK9822 then
          .error (.msg ("pixel type " ++ toString pixel_type_v ++ " is not known"))
        else
          match PixelType.ofNat? pixel_type_v with
          | none => .error (.ub "pixel_type")
          | some pixel_type =>
            if ¬ color_order_v ≤ ColorOrder.toNat .BGR then
              .error (.msg ("pixel type " ++ toString color_order_v ++ " is not known"))
            else
              match ColorOrder.ofNat? color_order_v with
              | none => .error (.ub "color_order")
              | some color_order =>
                .ok { power := power, mode := mode, speed := speed,
                      brightness := brightness, pixel_type := pixel_type,
                      color_order := color_order, _unknown := [u1, u2] }
    | _ => .error (.msg "could not unpack status vector!")

/-- The abstraction the specification calls MalformedStatus: the two
length-shape failures of statusTryFrom (short input fails the explicit
length check, long input fails the exactly-8 slice unpack). -/
def MalformedStatus (e : Except Err StatusResp) : Prop :=
  e = .error (.msg "status vector has wrong size") ∨
  e = .error (.msg "could not unpack status vector!")

/-! ## Client (client.rs)

The BLE transport is external; its observable calls are recorded as an
event trace.  Connect outcomes are injected as a Bool-valued function of
the attempt index, and the notification stream as the finite list of
chunks it delivers before closing. -/

/-- A transport operation performed by the client, in program order. -/
inductive Event where
  | connectAttempt (ok : Bool)
  | sleep
  | subscribe
  | write (frame : List Nat)
  | readChunk (chunk : List Nat)
deriving DecidableEq, Repr

/-- Whether an event is a connect attempt. -/
def Event.isConnectAttempt : Event → Bool
  | .connectAttempt _ => true
  | _ => false

/-- Number of connect attempts in a trace. -/
def countAttempts (evs : List Event) : Nat :=
  (evs.filter Event.isConnectAttempt).length

/-- client.rs, ensure_device_connected: the retry loop, entered with
retry = 3.  Each round attempts a connect (outcome given by outcomes at
the attempt index); on success it breaks, otherwise it decrements retry,
fails once retry reaches 0, and sleeps before the next round. -/
def connectLoop (outcomes : Nat → Bool) : Nat → Nat → Except Err Unit × List Event
  | _, 0 => (.error (.msg "failed to connect to device"), [])
  | i, retry + 1 =>
    if outcomes i then (.ok (), [.connectAttempt true])
    else if retry = 0 then
      (.error (.msg "failed to connect to device"), [.connectAttempt false])
    else
      let r := connectLoop outcomes (i + 1) retry
      (r.1, .connectAttempt false :: .sleep :: r.2)

/-- client.rs: ensure_device_connected.  If the transport reports the
device already connected, nothing is attempted; otherwise the retry
loop runs with retry = 3. -/
def ensure_device_connected (is_connected : Bool) (outcomes : Nat → Bool) :
    Except Err Unit × List Event :=
  if is_connected then (.ok (), []) else connectLoop outcomes 0 3

/-- client.rs: send_cmd_with_callback.  Ensures the connection, then
subscribes to notifications, then writes the command frame. -/
def send_cmd_with_callback (is_connected : Bool) (outcomes : Nat → Bool)
    (command : Command) : Except Err Unit × List Event :=
  let r := ensure_device_connected is_connected outcomes
  match r.1 with
  | .error e => (.error e, r.2)
  | .ok _ => (.ok (), r.2 ++ [.subscribe, .write command.buf])

/-- client.rs, get_status: the accumulation loop.  While the buffer is
shorter than STATUS_RETURN_LENGTH, the next chunk is appended; if the
stream ends first, the loop breaks with the short buffer. -/
def accumLoop (acc : List Nat) : List (List Nat) → List Nat × List Event
  | [] => (acc, [])
  | chunk :: rest =>
    if acc.length < STATUS_RETURN_LENGTH then
      let r := accumLoop (acc ++ chunk) rest
      (r.1, .readChunk chunk :: r.2)
    else (acc, [])

/-- client.rs: get_status.  Sends the Status command with a notification
callback, accumulates chunks, then hands the accumulated bytes to the
StatusResp decoder. -/
def get_status (is_connected : Bool) (outcomes : Nat → Bool)
    (chunks : List (List Nat)) : Except Err StatusResp × List Event :=
  let s := send_cmd_with_callback is_connected outcomes .Status
  match s.1 with
  | .error e => (.error e, s.2)
  | .ok _ =>
    let r := accumLoop [] chunks
    (statusTryFrom r.1, s.2 ++ r.2)

/-! ## Helper lemmas -/

/-- Inputs shorter than 8 bytes fail the explicit length check. -/
theorem statusTryFrom_short (bs : List Nat) (h : bs.length < 8) :
    statusTryFrom bs = .error (.msg "status vector has wrong size") := by
  unfold statusTryFrom
  rw [if_pos h]

/-- Inputs longer than 8 bytes pass the length check but fail the
exactly-8 slice unpack. -/
theorem statusTryFrom_long (bs : List Nat) (h : 8 < bs.length) :
    statusTryFrom bs = .error (.msg "could not unpack status vector!") := by
  rcases bs with _ | ⟨a, _ | ⟨b, _ | ⟨c, _ | ⟨d, _ | ⟨e, _ | ⟨f, _ | ⟨g, _ | ⟨h8, _ | ⟨i, rest⟩⟩⟩⟩⟩⟩⟩⟩⟩
  all_goals simp at h
  unfold statusTryFrom
  rw [if_neg (by simp)]

/-- Unfolding of statusTryFrom on an exactly-8-byte input. -/
theorem statusTryFrom_eight (p m s b pt co u1 u2 : Nat) :
    statusTryFrom [p, m, s, b, pt, co, u1, u2] =
      match decodeMode m with
      | .error e => .error e
      | .ok mode =>
        if ¬ pt ≤ PixelType.toNat .SK9822 then
          .error (.msg ("pixel type " ++ toString pt ++ " is not known"))
        else
          match PixelType.ofNat? pt with
          | none => .error (.ub "pixel_type")
          | some pixel_type =>
            if ¬ co ≤ ColorOrder.toNat .BGR then
              .error (.msg ("pixel type " ++ toString co ++ " is not known"))
            else
              match ColorOrder.ofNat? co with
              | none => .error (.ub "color_order")
              | some color_order =>
                .ok { power := p, mode := mode, speed := s, brightness := b,
                      pixel_type := pixel_type, color_order := color_order,
                      _unknown := [u1, u2] } := rfl

/-- Every error produced by decodeMode is an anyhow message, never the
undefined-behaviour marker. -/
theorem decodeMode_error_msg (m : Nat) (e : Err) (h : decodeMode m = .error e) :
    ∃ s, e = .msg s := by
  unfold decodeMode at h
  split at h
  · simp at h
  · split at h <;> first
      | exact ⟨_, h.symm⟩
      | (injection h with h2; exact ⟨_, h2.symm⟩)
      | simp at h

/-- On ordinals 0..26 the PixelType transmute is defined and is the
inverse of the ordinal cast. -/
theorem pixelType_ofNat_map_toNat : ∀ n, n < 27 →
    (PixelType.ofNat? n).map PixelType.toNat = some n := by decide

/-- On ordinals 0..5 the ColorOrder transmute is defined and is the
inverse of the ordinal cast. -/
theorem colorOrder_ofNat_map_toNat : ∀ n, n < 6 →
    (ColorOrder.ofNat? n).map ColorOrder.toNat = some n := by decide

/-- If the whole notification stream holds fewer than 8 bytes, the
accumulation loop consumes it entirely. -/
theorem accumLoop_all (chunks : List (List Nat)) : ∀ acc : List Nat,
    (acc ++ chunks.flatten).length < 8 →
    accumLoop acc chunks = (acc ++ chunks.flatten, chunks.map Event.readChunk) := by
  induction chunks with
  | nil => intro acc h; simp [accumLoop]
  | cons c rest ih =>
    intro acc h
    have hlt : acc.length < STATUS_RETURN_LENGTH := by
      simp [List.length_append, STATUS_RETURN_LENGTH] at h ⊢
      omega
    rw [accumLoop, if_pos hlt, ih (acc ++ c) (by simpa [List.append_assoc] using h)]
    simp [List.append_assoc]

/-- The accumulation loop consumes the shortest chunk prefix whose
bytes reach 8 (or the whole stream), reading chunks in order. -/
theorem accumLoop_spec (chunks : List (List Nat)) : ∀ acc : List Nat, ∃ k,
    k ≤ chunks.length ∧
    accumLoop acc chunks =
      (acc ++ (chunks.take k).flatten, (chunks.take k).map Event.readChunk) ∧
    (∀ j, j < k → (acc ++ (chunks.take j).flatten).length < 8) ∧
    (8 ≤ (acc ++ (chunks.take k).flatten).length ∨ k = chunks.length) := by
  induction chunks with
  | nil =>
    intro acc
    exact ⟨0, by simp [accumLoop]⟩
  | cons c rest ih =>
    intro acc
    by_cases hlt : acc.length < STATUS_RETURN_LENGTH
    · obtain ⟨k, hk, heq, hmin, hstop⟩ := ih (acc ++ c)
      refine ⟨k + 1, by simp; omega, ?_, ?_, ?_⟩
      · rw [accumLoop, if_pos hlt, heq]
        simp [List.append_assoc]
      · intro j hj
        match j with
        | 0 => simpa [STATUS_RETURN_LENGTH] using hlt
        | j + 1 =>
          have := hmin j (by omega)
          simpa [List.append_assoc] using this
      · rcases hstop with h8 | hlen
        · left; simpa [List.append_assoc] using h8
        · right; simpa using hlen
    · refine ⟨0, by simp, ?_, by simp, ?_⟩
      · rw [accumLoop, if_neg hlt]
        simp
      · left
        simp [STATUS_RETURN_LENGTH] at hlt ⊢
        omega

/-! ## Claim theorems -/

/-- Claim C1 (code bug): Command::buf performs no range validation.
Encoding SetPixels 0, SetPixels 2049 and Animation 201 — all outside
the documented ranges [1,2048] and [0,200] — succeeds and produces a
frame instead of failing with an out-of-range error; the source's own
TODO comments note the missing checks. -/
theorem encode_no_range_check :
    Command.buf (.SetPixels 0) = [COMMAND_PREFIX_BYTE, 0, 0, 0, 0x2D] ∧
    Command.buf (.SetPixels 2049) = [COMMAND_PREFIX_BYTE, 0x08, 0x01, 0, 0x2D] ∧
    Command.buf (.Animation 201) = [COMMAND_PREFIX_BYTE, 201, 0, 0, 0x2C] := by
  refine ⟨?_, ?_, ?_⟩ <;> decide

/-- Claim C2: if the notification stream closes before 8 bytes have
accumulated, get_status fails with the status-length error and never
yields a decoded StatusResp. -/
theorem query_status_incomplete (o : Nat → Bool) (chunks : List (List Nat))
    (h : chunks.flatten.length < 8) :
    (get_status true o chunks).1 = .error (.msg "status vector has wrong size") ∧
    ∀ r, (get_status true o chunks).1 ≠ .ok r := by
  have ha := accumLoop_all chunks [] (by simpa using h)
  have hres : (get_status true o chunks).1 = statusTryFrom chunks.flatten := by
    simp [get_status, send_cmd_with_callback, ensure_device_connected, ha]
  rw [hres, statusTryFrom_short _ (by simpa using h)]
  exact ⟨rfl, by simp⟩

/-- Witness for claim C2 at a concrete 3-byte stream. -/
theorem query_status_incomplete_witness :
    (get_status true (fun _ => true) [[1, 2, 3]]).1 =
      .error (.msg "status vector has wrong size") :=
  (query_status_incomplete (fun _ => true) [[1, 2, 3]] (by decide)).1

/-- Claim C3: ensure_device_connected skips connecting when the
transport reports the device connected, otherwise attempts at most 3
connects with a backoff sleep between attempts; three failures yield
the connection-failed error, and a success at any attempt ends the
retrying with success. -/
theorem connect_retry_spec :
    (∀ o : Nat → Bool, ensure_device_connected true o = (.ok (), [])) ∧
    (∀ o : Nat → Bool, o 0 = false → o 1 = false → o 2 = false →
      ensure_device_connected false o =
        (.error (.msg "failed to connect to device"),
         [.connectAttempt false, .sleep, .connectAttempt false, .sleep,
          .connectAttempt false])) ∧
    (∀ o : Nat → Bool, countAttempts (ensure_device_connected false o).2 ≤ 3) ∧
    (∀ o : Nat → Bool, o 0 = true →
      ensure_device_connected false o = (.ok (), [.connectAttempt true])) ∧
    (∀ o : Nat → Bool, o 0 = false → o 1 = true →
      ensure_device_connected false o =
        (.ok (), [.connectAttempt false, .sleep, .connectAttempt true])) ∧
    (∀ o : Nat → Bool, o 0 = false → o 1 = false → o 2 = true →
      ensure_device_connected false o =
        (.ok (), [.connectAttempt false, .sleep, .connectAttempt false, .sleep,
          .connectAttempt true])) := by
  refine ⟨fun o => rfl, ?_, ?_, ?_, ?_, ?_⟩
  · intro o h0 h1 h2
    simp [ensure_device_connected, connectLoop, h0, h1, h2]
  · intro o
    cases h0 : o 0 <;> cases h1 : o 1 <;> cases h2 : o 2 <;>
      simp [ensure_device_connected, connectLoop, countAttempts,
        Event.isConnectAttempt, h0, h1, h2]
  · intro o h0
    simp [ensure_device_connected, connectLoop, h0]
  · intro o h0 h1
    simp [ensure_device_connected, connectLoop, h0, h1]
  · intro o h0 h1 h2
    simp [ensure_device_connected, connectLoop, h0, h1, h2]

/-- Witness for claim C3: all attempts failing, and the first attempt
succeeding. -/
theorem connect_retry_spec_witness :
    ensure_device_connected false (fun _ => false) =
      (.error (.msg "failed to connect to device"),
       [.connectAttempt false, .sleep, .connectAttempt false, .sleep,
        .connectAttempt false]) ∧
    ensure_device_connected false (fun _ => true) =
      (.ok (), [.connectAttempt true]) :=
  ⟨connect_retry_spec.2.1 (fun _ => false) rfl rfl rfl,
   connect_retry_spec.2.2.2.1 (fun _ => true) rfl⟩

/-- Claim C4: on a connected device, get_status subscribes first, then
writes the Status frame, then reads notification chunks in arrival
order until at least 8 bytes have accumulated (or the stream ends),
and only then decodes the concatenation of the consumed chunks. -/
theorem query_status_operation_order (o : Nat → Bool) (chunks : List (List Nat)) :
    ∃ k, k ≤ chunks.length ∧
      (get_status true o chunks).2 =
        Event.subscribe :: Event.write (Command.buf .Status) ::
          (chunks.take k).map Event.readChunk ∧
      (get_status true o chunks).1 = statusTryFrom ((chunks.take k).flatten) ∧
      (∀ j, j < k → ((chunks.take j).flatten).length < 8) ∧
      (8 ≤ ((chunks.take k).flatten).length ∨ k = chunks.length) := by
  obtain ⟨k, hk, heq, hmin, hstop⟩ := accumLoop_spec chunks []
  refine ⟨k, hk, ?_, ?_, fun j hj => by simpa using hmin j hj, by simpa using hstop⟩
  · simp [get_status, send_cmd_with_callback, ensure_device_connected, heq]
  · simp [get_status, send_cmd_with_callback, ensure_device_connected, heq]

/-- Claim C5: mode derivation — bytes 0x00..0xC8 decode to Animation of
the raw value, 0xC9 to the custom-color indicator, 0xCA..0xCE to the
five fixed colors, anything above 0xCE to the unknown-mode error; and
the mode field of every successful status decode comes from this
derivation applied to byte 1. -/
theorem status_mode_decoding :
    (∀ m, m ≤ 0xc8 → decodeMode m = .ok (.Animation m)) ∧
    decodeMode 0xc9 = .ok (.Color 0 0 0) ∧
    decodeMode 0xca = .ok .FixedRed ∧
    decodeMode 0xcb = .ok .FixedGreen ∧
    decodeMode 0xcc = .ok .FixedBlue ∧
    decodeMode 0xcd = .ok .FixedWhite1 ∧
    decodeMode 0xce = .ok .FixedWhite2 ∧
    (∀ m, 0xce < m →
      decodeMode m = .error (.msg ("unknown mode " ++ toString m))) ∧
    (∀ p m s b pt co u1 u2 r,
      statusTryFrom [p, m, s, b, pt, co, u1, u2] = .ok r →
      decodeMode m = .ok r.mode) := by
  refine ⟨fun m hm => by simp [decodeMode, hm], rfl, rfl, rfl, rfl, rfl, rfl, ?_, ?_⟩
  · intro m hm
    unfold decodeMode
    rw [if_neg (by omega)]
    split
    all_goals first | rfl | omega
  · intro p m s b pt co u1 u2 r hok
    rw [statusTryFrom_eight] at hok
    cases hdm : decodeMode m with
    | error e =>
      simp only [hdm] at hok
      exact absurd hok (by simp)
    | ok mode =>
      simp only [hdm] at hok
      split at hok
      · exact absurd hok (by simp)
      split at hok
      · exact absurd hok (by simp)
      split at hok
      · exact absurd hok (by simp)
      split at hok
      · exact absurd hok (by simp)
      injection hok with h2
      rw [← h2]

/-- Witness for claim C5: animation byte 5, unknown byte 0xCF, and the
mode field of a concrete successful decode. -/
theorem status_mode_decoding_witness :
    decodeMode 5 = .ok (.Animation 5) ∧
    decodeMode 0xcf = .error (.msg ("unknown mode " ++ toString 0xcf)) ∧
    decodeMode 5 =
      .ok (StatusResp.mode ⟨1, .Animation 5, 3, 4, .APA102, .GRB, [1, 0xF4]⟩) :=
  ⟨status_mode_decoding.1 5 (by decide),
   status_mode_decoding.2.2.2.2.2.2.2.1 0xcf (by decide),
   status_mode_decoding.2.2.2.2.2.2.2.2 1 5 3 4 9 2 1 0xF4 _ rfl⟩

/-- Claim C6 (code bug): an out-of-range pixel_type byte (27) fails
with a message naming the pixel type; an out-of-range color_order byte
(6) also fails, but its message likewise reads "pixel type", copied
from the preceding check, instead of naming the color-order field. -/
theorem status_decode_enum_error_messages :
    statusTryFrom [1, 0, 0, 0, 27, 0, 1, 0xF4] =
      .error (.msg "pixel type 27 is not known") ∧
    statusTryFrom [1, 0, 0, 0, 0, 6, 1, 0xF4] =
      .error (.msg "pixel type 6 is not known") := by
  constructor <;> rfl

/-- Claim C7: any input whose length differs from 8 fails with one of
the two length-shape errors (the specification's MalformedStatus), and
a successful decode forces length exactly 8. -/
theorem status_decode_length_spec (bs : List Nat) :
    (bs.length ≠ 8 → MalformedStatus (statusTryFrom bs)) ∧
    (∀ r, statusTryFrom bs = .ok r → bs.length = 8) := by
  constructor
  · intro hne
    rcases Nat.lt_or_ge bs.length 8 with hlt | hge
    · exact Or.inl (statusTryFrom_short bs hlt)
    · have hgt : 8 < bs.length := lt_of_le_of_ne hge (fun e => hne e.symm)
      exact Or.inr (statusTryFrom_long bs hgt)
  · intro r hok
    by_contra hne
    rcases Nat.lt_or_ge bs.length 8 with hlt | hge
    · rw [statusTryFrom_short bs hlt] at hok
      exact absurd hok (by simp)
    · have hgt : 8 < bs.length := lt_of_le_of_ne hge (fun e => hne e.symm)
      rw [statusTryFrom_long bs hgt] at hok
      exact absurd hok (by simp)

/-- Witness for claim C7 at a concrete 3-byte input. -/
theorem status_decode_length_spec_witness :
    MalformedStatus (statusTryFrom [1, 2, 3]) :=
  (status_decode_length_spec [1, 2, 3]).1 (by decide)

/-- Claim C8: every parameterless command encodes to
[prefix, 0, 0, 0, opcode] with its declared opcode, and the first byte
of every frame is the fixed COMMAND_PREFIX constant. -/
theorem encode_parameterless_frames :
    Command.buf .Power = [COMMAND_PREFIX_BYTE, 0, 0, 0, 0xAA] ∧
    Command.buf .FixedRed = [COMMAND_PREFIX_BYTE, 0, 0, 0, 0x12] ∧
    Command.buf .FixedGreen = [COMMAND_PREFIX_BYTE, 0, 0, 0, 0x18] ∧
    Command.buf .FixedBlue = [COMMAND_PREFIX_BYTE, 0, 0, 0, 0x36] ∧
    Command.buf .FixedWhite1 = [COMMAND_PREFIX_BYTE, 0, 0, 0, 0x3B] ∧
    Command.buf .FixedWhite2 = [COMMAND_PREFIX_BYTE, 0, 0, 0, 0x56] ∧
    Command.buf .SpeedUp = [COMMAND_PREFIX_BYTE, 0, 0, 0, 0x03] ∧
    Command.buf .SpeedDown = [COMMAND_PREFIX_BYTE, 0, 0, 0, 0x09] ∧
    Command.buf .BrightnessUp = [COMMAND_PREFIX_BYTE, 0, 0, 0, 0x2A] ∧
    Command.buf .BrightnessDown = [COMMAND_PREFIX_BYTE, 0, 0, 0, 0x28] ∧
    Command.buf .Status = [COMMAND_PREFIX_BYTE, 0, 0, 0, 0x10] ∧
    (∀ c : Command, (Command.buf c).length = COMMAND_BUF_LENGTH ∧
      (Command.buf c).head? = some COMMAND_PREFIX_BYTE) :=
  ⟨rfl, rfl, rfl, rfl, rfl, rfl, rfl, rfl, rfl, rfl, rfl,
   fun _ => ⟨rfl, rfl⟩⟩

/-- Claim C9: when the accumulated notification bytes overshoot 8 (for
example two 5-byte chunks), get_status returns the unpack error rather
than decoding the first 8 bytes. -/
theorem query_status_overshoot (o : Nat → Bool) (chunks : List (List Nat))
    (h : 8 < (accumLoop [] chunks).1.length) :
    (get_status true o chunks).1 = .error (.msg "could not unpack status vector!") ∧
    ∀ r, (get_status true o chunks).1 ≠ .ok r := by
  have hres : (get_status true o chunks).1 = statusTryFrom (accumLoop [] chunks).1 := by
    simp [get_status, send_cmd_with_callback, ensure_device_connected]
  rw [hres, statusTryFrom_long _ h]
  exact ⟨rfl, by simp⟩

/-- Witness for claim C9: two 5-byte chunks accumulate to 10 bytes and
the query errors. -/
theorem query_status_overshoot_witness :
    (get_status true (fun _ => true) [[1, 1, 1, 1, 1], [2, 2, 2, 2, 2]]).1 =
      .error (.msg "could not unpack status vector!") :=
  (query_status_overshoot (fun _ => true) [[1, 1, 1, 1, 1], [2, 2, 2, 2, 2]]
    (by decide)).1

/-- Claim C10: the transmutes modelled by ofNat? are reached only after
the range checks, so the undefined-behaviour outcomes are unreachable
for every input, and every successfully decoded StatusResp carries enum
values whose ordinals are within bounds. -/
theorem status_decode_transmute_guarded (bs : List Nat) :
    statusTryFrom bs ≠ .error (.ub "pixel_type") ∧
    statusTryFrom bs ≠ .error (.ub "color_order") ∧
    (∀ r, statusTryFrom bs = .ok r →
      PixelType.toNat r.pixel_type ≤ 26 ∧ ColorOrder.toNat r.color_order ≤ 5) := by
  by_cases hlt : bs.length < 8
  · rw [statusTryFrom_short bs hlt]
    exact ⟨by simp, by simp, by simp⟩
  by_cases hgt : 8 < bs.length
  · rw [statusTryFrom_long bs hgt]
    exact ⟨by simp, by simp, by simp⟩
  have h8 : bs.length = 8 := by omega
  rcases bs with _ | ⟨p, _ | ⟨m, _ | ⟨s, _ | ⟨b, _ | ⟨pt, _ | ⟨co, _ | ⟨u1, _ | ⟨u2, _ | ⟨x, rest⟩⟩⟩⟩⟩⟩⟩⟩⟩ <;>
    simp at h8
  rw [statusTryFrom_eight]
  cases hdm : decodeMode m with
  | error e =>
    obtain ⟨str, rfl⟩ := decodeMode_error_msg m e hdm
    exact ⟨by simp, by simp, by simp⟩
  | ok mode =>
    by_cases hpt : pt ≤ PixelType.toNat .SK9822
    · have hptlt : pt < 27 := by
        have := hpt
        simp [PixelType.toNat] at this
        omega
      cases hof : PixelType.ofNat? pt with
      | none =>
        have hmap := pixelType_ofNat_map_toNat pt hptlt
        rw [hof] at hmap
        simp at hmap
      | some t =>
        have htn : PixelType.toNat t = pt := by
          have hmap := pixelType_ofNat_map_toNat pt hptlt
          rw [hof] at hmap
          simpa using hmap
        by_cases hco : co ≤ ColorOrder.toNat .BGR
        · have hcolt : co < 6 := by
            have := hco
            simp [ColorOrder.toNat] at this
            omega
          cases hcof : ColorOrder.ofNat? co with
          | none =>
            have hmap2 := colorOrder_ofNat_map_toNat co hcolt
            rw [hcof] at hmap2
            simp at hmap2
          | some t2 =>
            have htn2 : ColorOrder.toNat t2 = co := by
              have hmap2 := colorOrder_ofNat_map_toNat co hcolt
              rw [hcof] at hmap2
              simpa using hmap2
            simp only [hpt, hof, hco, hcof, not_true_eq_false, if_false]
            refine ⟨by simp, by simp, ?_⟩
            intro r hr
            injection hr with h2
            rw [← h2]
            constructor
            · rw [htn]
              simp [PixelType.toNat] at hpt
              omega
            · rw [htn2]
              simp [ColorOrder.toNat] at hco
              omega
        · simp only [hco, not_false_eq_true, if_true, hpt, hof,
            not_true_eq_false, if_false]
          exact ⟨by simp, by simp, by simp⟩
    · simp only [hpt, not_false_eq_true, if_true]
      exact ⟨by simp, by simp, by simp⟩

/-- Witness for claim C10: the enum ordinals of a concrete successful
decode are within bounds. -/
theorem status_decode_transmute_guarded_witness :
    PixelType.toNat
      (StatusResp.pixel_type ⟨1, .Animation 5, 3, 4, .APA102, .GRB, [1, 0xF4]⟩) ≤ 26 ∧
    ColorOrder.toNat
      (StatusResp.color_order ⟨1, .Animation 5, 3, 4, .APA102, .GRB, [1, 0xF4]⟩) ≤ 5 :=
  (status_decode_transmute_guarded [1, 5, 3, 4, 9, 2, 1, 0xF4]).2.2 _ rfl
